import Mathlib

/-!
Verification of the aihangout-platform backup-and-sync pipeline.

Shallow embedding of the three source files:
* `src/aws_sync.py` — `AIHangoutAWSSync` with `backup_problems_to_s3`,
  `backup_analytics_to_s3`, `sync_to_dynamodb`, `invoke_bedrock_analysis`,
  `get_status`, and the CLI `main`;
* `src/backup_scheduler.py` — `run_full_backup`, `run_quick_sync`, scheduler `main`;
* `src/enable_free_tier_mode.py` — `enable_free_tier_mode`.

External collaborators (the HTTP API, S3, DynamoDB, Bedrock, the machine clock)
are modelled as an explicit environment record: each field holds the response the
external world would give to the single call the code makes on it.  The S3
bucket is modelled as a list of key/object pairs in write order, the DynamoDB
table as an association list from `problem_id` to row (`batch.put_item` is an
upsert on the identity key, mirroring DynamoDB put semantics).  Machine-integer
overflow does not arise: Python integers are unbounded and are modelled as
`Nat`/`Int`.
-/

/-- A record of the upstream `/api/problems` collection.  `category` and
`upvotes` are the two fields the code reads with `.get(..., default)`; the
remaining fields are read with mandatory indexing (`problem['title']` etc.). -/
structure Problem where
  id : Int
  title : String
  description : String
  category : Option String
  upvotes : Option Int
  username : String
  ai_agent_type : String
  created_at : String
deriving DecidableEq, Repr

/-- Parsed JSON body of `GET /api/problems` — `data.get("problems", [])`
defaults to `[]` when the key is absent, hence the `Option`. -/
structure ProblemsBody where
  problems : Option (List Problem)
deriving DecidableEq, Repr

/-- Parsed JSON body of `GET /api/ai/learning-data`.  Learning records are
opaque to this program and modelled as strings. -/
structure LearningBody where
  learningData : Option (List String)
  count : Option Int
deriving DecidableEq, Repr

/-- An object stored in the S3 bucket: the JSON document `json.dumps` writes.
`backup_problems_to_s3` writes the dict
`{timestamp, problems, backup_type}`; `backup_analytics_to_s3` writes
`{timestamp, learning_data, count, backup_type}`. -/
inductive S3Object where
  | problemsBackup (timestamp : String) (problems : List Problem) (backup_type : String)
  | learningBackup (timestamp : String) (learning_data : List String) (count : Int)
      (backup_type : String)
deriving DecidableEq, Repr

/-- Length of the record payload held by a stored backup object. -/
def S3Object.payloadLength : S3Object → Nat
  | .problemsBackup _ ps _ => ps.length
  | .learningBackup _ ld _ _ => ld.length

/-- The `backup_type` tag of a stored backup object. -/
def S3Object.backupType : S3Object → String
  | .problemsBackup _ _ t => t
  | .learningBackup _ _ _ t => t

/-- The S3 bucket, as the list of objects put into it, in write order. -/
abbrev S3State := List (String × S3Object)

/-- The item dict built for each problem inside `sync_to_dynamodb`. -/
structure SyncedRow where
  problem_id : String
  title : String
  description : String
  category : String
  upvotes : Int
  username : String
  ai_agent_type : String
  created_at : String
  last_sync : String
deriving DecidableEq, Repr

/-- The DynamoDB table, as a map from `problem_id` (the partition key) to row,
represented as an association list. -/
abbrev DynamoTable := List (String × SyncedRow)

/-- Everything the outside world feeds one invocation of the sync object:
which AWS clients `_init_aws_clients` managed to construct, the HTTP responses
of the two upstream endpoints (status code and parsed JSON body) at the two
request sites, the outcome of the `head_bucket` probe and of the Bedrock call
(`Except.error` models the SDK call raising), and the machine clock
(`datetime.utcnow()`) as its `isoformat()`, its `strftime('%Y/%m/%d')`, and
`int(timestamp())`.  The model fixes one clock reading per invocation and one
Bedrock reply independent of the prompt; neither abstraction is load-bearing
for the claims below. -/
structure Env where
  s3Configured : Bool
  lambdaConfigured : Bool
  bedrockConfigured : Bool
  dynamoConfigured : Bool
  problemsResp1000 : Nat × ProblemsBody
  problemsResp50 : Nat × ProblemsBody
  learningResp : Nat × LearningBody
  headBucket : Except String Unit
  bedrockInvoke : Except String (String × String)
  nowIso : String
  nowYmd : String
  nowEpoch : Nat

/-- Result dict of `backup_problems_to_s3`: either
`{success, s3_key, problems_count, timestamp}` or `{error}`. -/
inductive BackupResult where
  | ok (s3_key : String) (problems_count : Nat) (timestamp : String)
  | error (msg : String)
deriving DecidableEq, Repr

/-- Result dict of `backup_analytics_to_s3`: either
`{success, s3_key, learning_records, timestamp}` or `{error}`. -/
inductive AnalyticsResult where
  | ok (s3_key : String) (learning_records : Int) (timestamp : String)
  | error (msg : String)
deriving DecidableEq, Repr

/-- Result dict of `sync_to_dynamodb`: either
`{success, table_name, synced_problems, timestamp}` or `{error}`. -/
inductive SyncResult where
  | ok (table_name : String) (synced_problems : Nat) (timestamp : String)
  | error (msg : String)
deriving DecidableEq, Repr

/-- Result dict of `invoke_bedrock_analysis`: either
`{success, response, usage}` or `{error}`. -/
inductive AnalyzeResult where
  | ok (response : String) (usage : String)
  | error (msg : String)
deriving DecidableEq, Repr

/-- The S3 key built at line 62 of `aws_sync.py`:
`f"ai-hangout/backups/problems/{utcnow:%Y/%m/%d}/problems-{int(ts)}.json"`. -/
def problemsKey (ymd : String) (epoch : Nat) : String :=
  "ai-hangout/backups/problems/" ++ ymd ++ "/problems-" ++ Nat.repr epoch ++ ".json"

/-- The S3 key built at line 102 of `aws_sync.py`:
`f"ai-hangout/ai-learning/{utcnow:%Y/%m/%d}/learning-{int(ts)}.json"`. -/
def learningKey (ymd : String) (epoch : Nat) : String :=
  "ai-hangout/ai-learning/" ++ ymd ++ "/learning-" ++ Nat.repr epoch ++ ".json"

/-- `AIHangoutAWSSync.backup_problems_to_s3`, lines 43-80 of `aws_sync.py`.
Returns the result dict together with the bucket state after the call. -/
def backup_problems_to_s3 (env : Env) (s3 : S3State) : BackupResult × S3State :=
  if env.s3Configured = false then
    (.error "AWS S3 not available", s3)
  else if env.problemsResp1000.1 ≠ 200 then
    (.error ("Failed to fetch problems: " ++ Nat.repr env.problemsResp1000.1), s3)
  else
    let ps := env.problemsResp1000.2.problems.getD []
    let key := problemsKey env.nowYmd env.nowEpoch
    (.ok key ps.length env.nowIso,
      s3 ++ [(key, S3Object.problemsBackup env.nowIso ps "full_problems_backup")])

/-- `AIHangoutAWSSync.backup_analytics_to_s3`, lines 82-120 of `aws_sync.py`. -/
def backup_analytics_to_s3 (env : Env) (s3 : S3State) : AnalyticsResult × S3State :=
  if env.s3Configured = false then
    (.error "AWS S3 not available", s3)
  else if env.learningResp.1 ≠ 200 then
    (.error ("Failed to fetch learning data: " ++ Nat.repr env.learningResp.1), s3)
  else
    let ld := env.learningResp.2.learningData.getD []
    let c := env.learningResp.2.count.getD 0
    let key := learningKey env.nowYmd env.nowEpoch
    (.ok key c env.nowIso,
      s3 ++ [(key, S3Object.learningBackup env.nowIso ld c "ai_learning_data")])

/-- `str(problem['id'])` — the partition key of an upstream record. -/
def idKey (p : Problem) : String := Int.repr p.id

/-- The item dict built for one problem in the batch-writer loop,
lines 140-150 of `aws_sync.py`. -/
def itemOf (p : Problem) (now : String) : SyncedRow :=
  { problem_id := idKey p
    title := p.title
    description := p.description
    category := p.category.getD "other"
    upvotes := p.upvotes.getD 0
    username := p.username
    ai_agent_type := p.ai_agent_type
    created_at := p.created_at
    last_sync := now }

/-- `batch.put_item(Item=item)`: DynamoDB put is an upsert on the partition
key — a row with the same `problem_id` is fully replaced in place, otherwise
the row is appended. -/
def putItem : DynamoTable → SyncedRow → DynamoTable
  | [], r => [(r.problem_id, r)]
  | (k, v) :: rest, r =>
      if k = r.problem_id then (r.problem_id, r) :: rest
      else (k, v) :: putItem rest r

/-- `AIHangoutAWSSync.sync_to_dynamodb`, lines 122-161 of `aws_sync.py`.
Returns the result dict together with the table state after the call. -/
def sync_to_dynamodb (env : Env) (table_name : String) (tbl : DynamoTable) :
    SyncResult × DynamoTable :=
  if env.dynamoConfigured = false then
    (.error "AWS DynamoDB not available", tbl)
  else if env.problemsResp50.1 ≠ 200 then
    (.error ("Failed to fetch problems: " ++ Nat.repr env.problemsResp50.1), tbl)
  else
    let problems := env.problemsResp50.2.problems.getD []
    (.ok table_name problems.length env.nowIso,
      problems.foldl (fun t p => putItem t (itemOf p env.nowIso)) tbl)

/-- `AIHangoutAWSSync.invoke_bedrock_analysis`, lines 163-186 of `aws_sync.py`.
The prompt is forwarded to the service; the modelled service reply lives in
the environment. -/
def invoke_bedrock_analysis (env : Env) (_prompt : String) : AnalyzeResult :=
  if env.bedrockConfigured = false then
    .error "AWS Bedrock not available"
  else
    match env.bedrockInvoke with
    | .ok tu => .ok tu.1 tu.2
    | .error e => .error ("Bedrock analysis failed: " ++ e)

/-- Module constant `WORKER_URL` of `aws_sync.py`. -/
def WORKER_URL : String := "https://aihangout-ai.rblake2320.workers.dev"

/-- Module constant `AIHANGOUT_BUCKET` (default value of the env var). -/
def AIHANGOUT_BUCKET : String := "ai-army-data"

/-- The status dict built by `get_status`, lines 226-249 of `aws_sync.py`.
`s3_bucket_accessible` is only present when the S3 client is configured. -/
structure ServiceStatus where
  timestamp : String
  aws_configured : Bool
  s3 : Bool
  lambdaSvc : Bool
  bedrock : Bool
  dynamodb : Bool
  worker_url : String
  bucket : String
  s3_bucket_accessible : Option Bool
deriving DecidableEq, Repr

/-- `AIHangoutAWSSync.get_status`.  The return type is `Except` so that an
escaping exception is representable; the bare `except` around `head_bucket`
(lines 242-247) converts a raising probe into `s3_bucket_accessible = False`. -/
def get_status (env : Env) : Except String ServiceStatus :=
  let base : ServiceStatus :=
    { timestamp := env.nowIso
      aws_configured := env.s3Configured
      s3 := env.s3Configured
      lambdaSvc := env.lambdaConfigured
      bedrock := env.bedrockConfigured
      dynamodb := env.dynamoConfigured
      worker_url := WORKER_URL
      bucket := AIHANGOUT_BUCKET
      s3_bucket_accessible := none }
  if env.s3Configured then
    match env.headBucket with
    | .ok _ => .ok { base with s3_bucket_accessible := some true }
    | .error _ => .ok { base with s3_bucket_accessible := some false }
  else
    .ok base

/-- A concrete environment in which every fetch fails with a non-200 status
while all AWS clients are configured. -/
def envBad : Env :=
  { s3Configured := true
    lambdaConfigured := true
    bedrockConfigured := true
    dynamoConfigured := true
    problemsResp1000 := (500, ⟨none⟩)
    problemsResp50 := (503, ⟨none⟩)
    learningResp := (404, ⟨none, none⟩)
    headBucket := .ok ()
    bedrockInvoke := .ok ("", "")
    nowIso := "2024-06-01T12:00:00"
    nowYmd := "2024/06/01"
    nowEpoch := 1717243200 }

/-- C1: on any non-200 upstream status, each of the three writers returns the
tagged error result carrying the status code and leaves the bucket resp. the
table exactly as it was: the error return precedes every `put_object` /
`put_item` call. -/
theorem claim1_no_write_on_bad_status (env : Env) (s3 : S3State) (tbl : DynamoTable)
    (tname : String) :
    (env.s3Configured = true → env.problemsResp1000.1 ≠ 200 →
      backup_problems_to_s3 env s3
        = (BackupResult.error ("Failed to fetch problems: "
            ++ Nat.repr env.problemsResp1000.1), s3))
    ∧ (env.s3Configured = true → env.learningResp.1 ≠ 200 →
      backup_analytics_to_s3 env s3
        = (AnalyticsResult.error ("Failed to fetch learning data: "
            ++ Nat.repr env.learningResp.1), s3))
    ∧ (env.dynamoConfigured = true → env.problemsResp50.1 ≠ 200 →
      sync_to_dynamodb env tname tbl
        = (SyncResult.error ("Failed to fetch problems: "
            ++ Nat.repr env.problemsResp50.1), tbl)) := by
  refine ⟨fun h1 h2 => ?_, fun h1 h2 => ?_, fun h1 h2 => ?_⟩
  · simp [backup_problems_to_s3, h1, h2]
  · simp [backup_analytics_to_s3, h1, h2]
  · simp [sync_to_dynamodb, h1, h2]

/-- Witness for C1 at the concrete environment `envBad`. -/
theorem claim1_no_write_on_bad_status_witness :
    backup_problems_to_s3 envBad [] = (BackupResult.error "Failed to fetch problems: 500", [])
    ∧ backup_analytics_to_s3 envBad []
        = (AnalyticsResult.error "Failed to fetch learning data: 404", [])
    ∧ sync_to_dynamodb envBad "ai-hangout-problems" []
        = (SyncResult.error "Failed to fetch problems: 503", []) := by
  have h := claim1_no_write_on_bad_status envBad [] [] "ai-hangout-problems"
  exact ⟨(h.1 rfl (by decide)).trans (by decide),
         (h.2.1 rfl (by decide)).trans (by decide),
         (h.2.2 rfl (by decide)).trans (by decide)⟩

/-- The single record of the worked example in the spec. -/
def pC4 : Problem :=
  { id := 1
    title := "T"
    description := "D"
    category := none
    upvotes := none
    username := "u"
    ai_agent_type := "x"
    created_at := "2024-01-01T00:00:00Z" }

/-- Environment delivering exactly the upstream response of the worked
example to the `limit=50` fetch. -/
def envC4 : Env :=
  { s3Configured := true
    lambdaConfigured := true
    bedrockConfigured := true
    dynamoConfigured := true
    problemsResp1000 := (200, ⟨some [pC4]⟩)
    problemsResp50 := (200, ⟨some [pC4]⟩)
    learningResp := (200, ⟨some [], some 0⟩)
    headBucket := .ok ()
    bedrockInvoke := .ok ("", "")
    nowIso := "2024-06-01T12:00:00"
    nowYmd := "2024/06/01"
    nowEpoch := 1717243200 }

/-- C4: on the upstream response
`{"problems":[{"id":1,"title":"T","description":"D","username":"u",
"ai_agent_type":"x","created_at":"2024-01-01T00:00:00Z"}]}`,
`sync_to_dynamodb` upserts exactly one row, with `problem_id = "1"`,
`category = "other"` and `upvotes = 0` filled in by the defaults. -/
theorem claim4_worked_example :
    sync_to_dynamodb envC4 "ai-hangout-problems" []
      = (SyncResult.ok "ai-hangout-problems" 1 "2024-06-01T12:00:00",
         [("1",
           { problem_id := "1"
             title := "T"
             description := "D"
             category := "other"
             upvotes := 0
             username := "u"
             ai_agent_type := "x"
             created_at := "2024-01-01T00:00:00Z"
             last_sync := "2024-06-01T12:00:00" })]) := by
  rfl

/-- C3: a successful fetch of `n` records makes the Snapshot Writer store one
new object whose payload has length exactly `n` and whose `backup_type` tag is
`full_problems_backup` for the problems resource and `ai_learning_data` for the
learning-data resource. -/
theorem claim3_envelope_shape (env : Env) (s3 : S3State) (ps : List Problem)
    (ld : List String) (c : Option Int) :
    (env.s3Configured = true → env.problemsResp1000.1 = 200 →
      env.problemsResp1000.2.problems = some ps →
      ∃ k obj, (backup_problems_to_s3 env s3).2 = s3 ++ [(k, obj)]
        ∧ obj.payloadLength = ps.length
        ∧ obj.backupType = "full_problems_backup")
    ∧ (env.s3Configured = true → env.learningResp.1 = 200 →
      env.learningResp.2.learningData = some ld → env.learningResp.2.count = c →
      ∃ k obj, (backup_analytics_to_s3 env s3).2 = s3 ++ [(k, obj)]
        ∧ obj.payloadLength = ld.length
        ∧ obj.backupType = "ai_learning_data") := by
  constructor
  · intro h1 h2 h3
    refine ⟨problemsKey env.nowYmd env.nowEpoch,
      S3Object.problemsBackup env.nowIso ps "full_problems_backup", ?_, rfl, rfl⟩
    simp [backup_problems_to_s3, h1, h2, h3]
  · intro h1 h2 h3 h4
    refine ⟨learningKey env.nowYmd env.nowEpoch,
      S3Object.learningBackup env.nowIso ld (c.getD 0) "ai_learning_data", ?_, rfl, rfl⟩
    simp [backup_analytics_to_s3, h1, h2, h3, h4]

/-- Witness for C3 at the concrete environment `envC4` (one problem record,
an empty learning-data list). -/
theorem claim3_envelope_shape_witness :
    (∃ k obj, (backup_problems_to_s3 envC4 []).2 = [] ++ [(k, obj)]
      ∧ obj.payloadLength = 1 ∧ obj.backupType = "full_problems_backup")
    ∧ (∃ k obj, (backup_analytics_to_s3 envC4 []).2 = [] ++ [(k, obj)]
      ∧ obj.payloadLength = 0 ∧ obj.backupType = "ai_learning_data") := by
  have h := claim3_envelope_shape envC4 [] [pC4] [] (some 0)
  exact ⟨h.1 rfl rfl rfl, h.2 rfl rfl rfl rfl⟩

/-- Shared helper: `get_status` only ever produces an `ok` value — every
exception the probe can raise is swallowed by the bare `except`. -/
theorem get_status_ok (env : Env) : ∃ s, get_status env = Except.ok s := by
  unfold get_status
  cases h : env.s3Configured <;> simp
  cases env.headBucket <;> simp

/-- C5: the Status Reporter never raises: for every probe behaviour it returns
a `ServiceStatus`, and when the S3 client is configured and the probe throws it
reports `s3_bucket_accessible = false` instead of propagating the exception. -/
theorem claim5_status_never_raises (env : Env) :
    (∃ s, get_status env = Except.ok s)
    ∧ (∀ m, env.s3Configured = true → env.headBucket = Except.error m →
        ∃ s, get_status env = Except.ok s ∧ s.s3_bucket_accessible = some false) := by
  refine ⟨get_status_ok env, fun m h1 h2 => ?_⟩
  refine ⟨{ timestamp := env.nowIso
            aws_configured := env.s3Configured
            s3 := env.s3Configured
            lambdaSvc := env.lambdaConfigured
            bedrock := env.bedrockConfigured
            dynamodb := env.dynamoConfigured
            worker_url := WORKER_URL
            bucket := AIHANGOUT_BUCKET
            s3_bucket_accessible := some false }, ?_, rfl⟩
  unfold get_status
  simp [h1, h2]

/-- A concrete environment whose bucket-existence probe raises. -/
def envProbeFail : Env :=
  { s3Configured := true
    lambdaConfigured := false
    bedrockConfigured := false
    dynamoConfigured := false
    problemsResp1000 := (200, ⟨none⟩)
    problemsResp50 := (200, ⟨none⟩)
    learningResp := (200, ⟨none, none⟩)
    headBucket := .error "AccessDenied"
    bedrockInvoke := .error "unavailable"
    nowIso := "2024-06-01T12:00:00"
    nowYmd := "2024/06/01"
    nowEpoch := 1717243200 }

/-- Witness for C5 at the concrete environment `envProbeFail`. -/
theorem claim5_status_never_raises_witness :
    ∃ s, get_status envProbeFail = Except.ok s ∧ s.s3_bucket_accessible = some false :=
  (claim5_status_never_raises envProbeFail).2 "AccessDenied" rfl rfl

/-- A concrete environment whose learning-data response advertises
`count = 5` while containing a single record. -/
def envCount5 : Env :=
  { s3Configured := true
    lambdaConfigured := true
    bedrockConfigured := true
    dynamoConfigured := true
    problemsResp1000 := (200, ⟨none⟩)
    problemsResp50 := (200, ⟨none⟩)
    learningResp := (200, ⟨some ["rec"], some 5⟩)
    headBucket := .ok ()
    bedrockInvoke := .ok ("", "")
    nowIso := "2024-06-01T12:00:00"
    nowYmd := "2024/06/01"
    nowEpoch := 1717243200 }

/-- C10: on a successful learning-data fetch, `backup_analytics_to_s3` reports
`learning_records` as the top-level `count` field (default 0 when absent),
independently of the `learningData` payload it stores; at `envCount5` (count 5,
one record) the reported count differs from the number of records written. -/
theorem claim10_count_reported_independently (env : Env) (s3 : S3State)
    (ld : List String) (c : Option Int) :
    (env.s3Configured = true → env.learningResp.1 = 200 →
      env.learningResp.2.learningData = some ld → env.learningResp.2.count = c →
      (backup_analytics_to_s3 env s3).1
        = AnalyticsResult.ok (learningKey env.nowYmd env.nowEpoch) (c.getD 0) env.nowIso)
    ∧ ((backup_analytics_to_s3 envCount5 []).1
        = AnalyticsResult.ok (learningKey "2024/06/01" 1717243200) 5 "2024-06-01T12:00:00"
      ∧ (backup_analytics_to_s3 envCount5 []).2
          = [(learningKey "2024/06/01" 1717243200,
              S3Object.learningBackup "2024-06-01T12:00:00" ["rec"] 5 "ai_learning_data")]
      ∧ (S3Object.learningBackup "2024-06-01T12:00:00" ["rec"] 5
          "ai_learning_data").payloadLength = 1
      ∧ (5 : Int) ≠ 1) := by
  refine ⟨fun h1 h2 h3 h4 => ?_, by decide, by decide, rfl, by decide⟩
  simp [backup_analytics_to_s3, h1, h2, h3, h4]

/-- Witness for C10 at the concrete environment `envCount5`. -/
theorem claim10_count_reported_independently_witness :
    (backup_analytics_to_s3 envCount5 []).1
      = AnalyticsResult.ok (learningKey "2024/06/01" 1717243200) 5 "2024-06-01T12:00:00" :=
  (claim10_count_reported_independently envCount5 [] ["rec"] (some 5)).1 rfl rfl rfl rfl

/-- Key lookup in the modelled DynamoDB table. -/
def lookupRow : DynamoTable → String → Option SyncedRow
  | [], _ => none
  | (k, v) :: rest, key => if k = key then some v else lookupRow rest key

/-- The key column of the modelled table. -/
def keysOf (tbl : DynamoTable) : List String := tbl.map Prod.fst

/-- The whole batch-writer loop of `sync_to_dynamodb` as one function:
upsert the projection of every fetched record, in fetch order. -/
def runBatch (tbl : DynamoTable) (ps : List Problem) (now : String) : DynamoTable :=
  ps.foldl (fun t p => putItem t (itemOf p now)) tbl

/-- The last record of the fetched list carrying a given identity key — the
record whose projection survives the batch of upserts. -/
def lastWithKey : List Problem → String → Option Problem
  | [], _ => none
  | p :: ps, k =>
      match lastWithKey ps k with
      | some q => some q
      | none => if idKey p = k then some p else none

theorem itemOf_problem_id (p : Problem) (now : String) :
    (itemOf p now).problem_id = idKey p := rfl

theorem lookupRow_putItem (tbl : DynamoTable) (r : SyncedRow) (k : String) :
    lookupRow (putItem tbl r) k = if r.problem_id = k then some r else lookupRow tbl k := by
  induction tbl with
  | nil => simp [putItem, lookupRow]
  | cons e rest ih =>
      obtain ⟨k0, v0⟩ := e
      by_cases h : k0 = r.problem_id <;> by_cases hk : k0 = k <;>
        by_cases hrk : r.problem_id = k <;>
        simp_all [putItem, lookupRow]

theorem keysOf_putItem (tbl : DynamoTable) (r : SyncedRow) :
    keysOf (putItem tbl r)
      = if r.problem_id ∈ keysOf tbl then keysOf tbl else keysOf tbl ++ [r.problem_id] := by
  induction tbl with
  | nil => simp [putItem, keysOf]
  | cons e rest ih =>
      obtain ⟨k0, v0⟩ := e
      by_cases h : k0 = r.problem_id
      · subst h
        simp [putItem, keysOf, List.mem_cons]
      · have h2 : ¬(r.problem_id = k0) := fun hc => h hc.symm
        by_cases hm : r.problem_id ∈ keysOf rest <;>
          simp_all [putItem, keysOf, List.mem_cons]

theorem mem_keysOf_putItem (tbl : DynamoTable) (r : SyncedRow) (k : String) :
    k ∈ keysOf (putItem tbl r) ↔ k = r.problem_id ∨ k ∈ keysOf tbl := by
  rw [keysOf_putItem]
  by_cases h : r.problem_id ∈ keysOf tbl
  · rw [if_pos h]
    constructor
    · exact Or.inr
    · rintro (rfl | hk)
      · exact h
      · exact hk
  · rw [if_neg h, List.mem_append, List.mem_singleton]
    tauto

theorem nodup_keysOf_putItem (tbl : DynamoTable) (r : SyncedRow)
    (h : (keysOf tbl).Nodup) : (keysOf (putItem tbl r)).Nodup := by
  rw [keysOf_putItem]
  by_cases hm : r.problem_id ∈ keysOf tbl
  · rw [if_pos hm]; exact h
  · rw [if_neg hm]
    refine List.Nodup.append h (List.nodup_singleton _) ?_
    intro x hx hx2
    rw [List.mem_singleton] at hx2
    subst hx2
    exact hm hx

theorem lookupRow_runBatch (ps : List Problem) (now : String) :
    ∀ (tbl : DynamoTable) (k : String),
      lookupRow (runBatch tbl ps now) k
        = match lastWithKey ps k with
          | some q => some (itemOf q now)
          | none => lookupRow tbl k := by
  induction ps with
  | nil => intro tbl k; simp [runBatch, lastWithKey]
  | cons p ps ih =>
      intro tbl k
      have hstep : runBatch tbl (p :: ps) now = runBatch (putItem tbl (itemOf p now)) ps now := rfl
      rw [hstep, ih]
      cases hlast : lastWithKey ps k with
      | some q => simp [lastWithKey, hlast]
      | none =>
          by_cases hk : idKey p = k <;>
            simp [lastWithKey, hlast, lookupRow_putItem, itemOf_problem_id, hk]

theorem mem_keysOf_runBatch (ps : List Problem) (now : String) :
    ∀ (tbl : DynamoTable) (k : String),
      k ∈ keysOf (runBatch tbl ps now) ↔ k ∈ ps.map idKey ∨ k ∈ keysOf tbl := by
  induction ps with
  | nil => intro tbl k; simp [runBatch]
  | cons p ps ih =>
      intro tbl k
      have hstep : runBatch tbl (p :: ps) now = runBatch (putItem tbl (itemOf p now)) ps now := rfl
      rw [hstep, ih, mem_keysOf_putItem, itemOf_problem_id, List.map_cons, List.mem_cons]
      tauto

theorem nodup_keysOf_runBatch (ps : List Problem) (now : String) :
    ∀ (tbl : DynamoTable), (keysOf tbl).Nodup → (keysOf (runBatch tbl ps now)).Nodup := by
  induction ps with
  | nil => intro tbl h; exact h
  | cons p ps ih =>
      intro tbl h
      exact ih (putItem tbl (itemOf p now)) (nodup_keysOf_putItem tbl (itemOf p now) h)

theorem lastWithKey_key (ps : List Problem) (k : String) :
    ∀ q, lastWithKey ps k = some q → idKey q = k := by
  induction ps with
  | nil => intro q hq; simp [lastWithKey] at hq
  | cons p ps ih =>
      intro q hq
      simp only [lastWithKey] at hq
      cases hlast : lastWithKey ps k with
      | some q2 =>
          rw [hlast] at hq
          simp only [] at hq
          cases hq
          exact ih q hlast
      | none =>
          rw [hlast] at hq
          simp only [] at hq
          by_cases hk : idKey p = k
          · rw [if_pos hk] at hq
            cases hq
            exact hk
          · rw [if_neg hk] at hq
            exact Option.noConfusion hq

theorem lastWithKey_of_mem (ps : List Problem) (k : String) (h : k ∈ ps.map idKey) :
    ∃ q, lastWithKey ps k = some q ∧ idKey q = k := by
  have hsome : ∃ q, lastWithKey ps k = some q := by
    induction ps with
    | nil => simp at h
    | cons p ps ih =>
        simp only [lastWithKey]
        cases hlast : lastWithKey ps k with
        | some q2 => exact ⟨q2, rfl⟩
        | none =>
            rw [List.map_cons, List.mem_cons] at h
            rcases h with h | h
            · exact ⟨p, by rw [if_pos h.symm]⟩
            · obtain ⟨q, hq⟩ := ih h
              rw [hlast] at hq
              exact Option.noConfusion hq
  obtain ⟨q, hq⟩ := hsome
  exact ⟨q, hq, lastWithKey_key ps k q hq⟩

theorem lookupRow_of_mem_nodup (tbl : DynamoTable) (k : String) (v : SyncedRow)
    (hnd : (keysOf tbl).Nodup) (hm : (k, v) ∈ tbl) : lookupRow tbl k = some v := by
  induction tbl with
  | nil => simp at hm
  | cons e rest ih =>
      obtain ⟨k0, v0⟩ := e
      rw [keysOf, List.map_cons, List.nodup_cons] at hnd
      rcases List.mem_cons.1 hm with he | ht
      · cases he
        simp [lookupRow]
      · have hk : k0 ≠ k := by
          intro hc
          subst hc
          exact hnd.1 (List.mem_map.2 ⟨(k0, v), ht, rfl⟩)
        rw [lookupRow, if_neg hk]
        exact ih hnd.2 ht

/-- An environment in which the upstream delivers the record list `ps` with
status 200 and the machine clock reads `t`: the setting of the idempotence
property, where the same unchanged records are fetched on both runs. -/
def envSync (ps : List Problem) (t : String) : Env :=
  { s3Configured := true
    lambdaConfigured := true
    bedrockConfigured := true
    dynamoConfigured := true
    problemsResp1000 := (200, ⟨some ps⟩)
    problemsResp50 := (200, ⟨some ps⟩)
    learningResp := (200, ⟨some [], some 0⟩)
    headBucket := .ok ()
    bedrockInvoke := .ok ("", "")
    nowIso := t
    nowYmd := "1970/01/01"
    nowEpoch := 0 }

theorem sync_envSync (ps : List Problem) (t tname : String) (tbl : DynamoTable) :
    sync_to_dynamodb (envSync ps t) tname tbl
      = (SyncResult.ok tname ps.length t, runBatch tbl ps t) := rfl

/-- The table left by running `sync_to_dynamodb` twice over the same upstream
records, starting from an empty table, at clock readings `t1` then `t2`. -/
def twiceSynced (ps : List Problem) (t1 t2 tname : String) : DynamoTable :=
  (sync_to_dynamodb (envSync ps t2) tname
    ((sync_to_dynamodb (envSync ps t1) tname []).2)).2

/-- C2: the batched upsert is idempotent per identity key.  Running
`sync_to_dynamodb` twice over the same unchanged records at times `t1` then
`t2` leaves a table whose keys are exactly the distinct record ids (no
duplicate rows), whose row at each id is the projection built by the second
run — `itemOf` of the surviving record with `last_sync = t2` — and all of
whose rows carry `last_sync = t2`. -/
theorem claim2_sync_idempotent (ps : List Problem) (t1 t2 tname : String) :
    (keysOf (twiceSynced ps t1 t2 tname)).Nodup
    ∧ (∀ k, k ∈ keysOf (twiceSynced ps t1 t2 tname) ↔ k ∈ ps.map idKey)
    ∧ (∀ k q, lastWithKey ps k = some q →
        lookupRow (twiceSynced ps t1 t2 tname) k = some (itemOf q t2))
    ∧ (∀ e, e ∈ twiceSynced ps t1 t2 tname → e.2.last_sync = t2) := by
  have hT : twiceSynced ps t1 t2 tname = runBatch (runBatch [] ps t1) ps t2 := rfl
  have hnodup : (keysOf (twiceSynced ps t1 t2 tname)).Nodup := by
    rw [hT]
    exact nodup_keysOf_runBatch ps t2 _ (nodup_keysOf_runBatch ps t1 [] (by simp [keysOf]))
  have hmem : ∀ k, k ∈ keysOf (twiceSynced ps t1 t2 tname) ↔ k ∈ ps.map idKey := by
    intro k
    rw [hT, mem_keysOf_runBatch, mem_keysOf_runBatch]
    simp [keysOf]
  have hlook : ∀ k q, lastWithKey ps k = some q →
      lookupRow (twiceSynced ps t1 t2 tname) k = some (itemOf q t2) := by
    intro k q hq
    rw [hT, lookupRow_runBatch, hq]
  refine ⟨hnodup, hmem, hlook, ?_⟩
  rintro ⟨k, v⟩ hmem2
  have hk : k ∈ keysOf (twiceSynced ps t1 t2 tname) :=
    List.mem_map.2 ⟨(k, v), hmem2, rfl⟩
  obtain ⟨q, hq, _⟩ := lastWithKey_of_mem ps k ((hmem k).1 hk)
  have hv : lookupRow (twiceSynced ps t1 t2 tname) k = some v :=
    lookupRow_of_mem_nodup _ k v hnodup hmem2
  have hv2 := hlook k q hq
  rw [hv] at hv2
  cases hv2
  rfl

/-- A concrete record used by several witnesses. -/
def pW : Problem :=
  { id := 7
    title := "t"
    description := "d"
    category := some "bug"
    upvotes := some 3
    username := "u"
    ai_agent_type := "a"
    created_at := "c" }

/-- Witness for C2 at the one-record list `[pW]`: after the two runs the row
at `idKey pW` is the second-run projection. -/
theorem claim2_sync_idempotent_witness :
    lookupRow (twiceSynced [pW] "t1" "t2" "ai-hangout-problems") (idKey pW)
      = some (itemOf pW "t2") :=
  (claim2_sync_idempotent [pW] "t1" "t2" "ai-hangout-problems").2.2.1 (idKey pW) pW (by decide)

/-- Decimal value of a digit character (inverse of `Nat.digitChar` below 10). -/
def digitVal (c : Char) : Nat := c.toNat - 48

/-- Decimal value of a digit string, most significant first, folded onto an
accumulator. -/
def valFrom (a : Nat) : List Char → Nat
  | [] => a
  | c :: cs => valFrom (10 * a + digitVal c) cs

theorem digitVal_digitChar : ∀ d, d < 10 → digitVal (Nat.digitChar d) = d := by decide

theorem valFrom_toDigitsCore :
    ∀ (f : Nat), ∀ (n : Nat) (l : List Char), n < f →
      valFrom 0 (Nat.toDigitsCore 10 f n l) = valFrom n l := by
  intro f
  induction f with
  | zero => intro n l h; exact absurd h (Nat.not_lt_zero n)
  | succ f ih =>
      intro n l h
      simp only [Nat.toDigitsCore]
      by_cases hd : n / 10 = 0
      · rw [if_pos hd]
        show valFrom (10 * 0 + digitVal (Nat.digitChar (n % 10))) l = valFrom n l
        rw [digitVal_digitChar _ (Nat.mod_lt _ (by omega))]
        have hn : 10 * 0 + n % 10 = n := by omega
        rw [hn]
      · rw [if_neg hd]
        have hlt : n / 10 < f := by omega
        rw [ih (n / 10) (Nat.digitChar (n % 10) :: l) hlt]
        show valFrom (10 * (n / 10) + digitVal (Nat.digitChar (n % 10))) l = valFrom n l
        rw [digitVal_digitChar _ (Nat.mod_lt _ (by omega))]
        have hn : 10 * (n / 10) + n % 10 = n := by omega
        rw [hn]

theorem valFrom_repr (n : Nat) : valFrom 0 (Nat.repr n).data = n :=
  valFrom_toDigitsCore (n + 1) n [] (Nat.lt_succ_self n)

/-- `Nat.repr` (the decimal string the code embeds into the S3 key) is
injective: distinct epoch seconds give distinct key tails. -/
theorem repr_nat_inj {m n : Nat} (h : Nat.repr m = Nat.repr n) : m = n := by
  have hm := valFrom_repr m
  rw [h, valFrom_repr n] at hm
  exact hm.symm

theorem string_data_inj {s t : String} (h : s.data = t.data) : s = t := by
  cases s
  cases t
  simp_all

/-- Split a character list on a separator (used to read the `/`-separated
segments of a storage key; unlike `String.splitOn` this definition evaluates
inside the kernel). -/
def splitOnChar (sep : Char) : List Char → List (List Char)
  | [] => [[]]
  | c :: cs =>
      if c = sep then [] :: splitOnChar sep cs
      else
        match splitOnChar sep cs with
        | [] => [[c]]
        | seg :: rest => (c :: seg) :: rest

/-- Decidable reading of the spec's key pattern
`<namespace>/<category>/<YYYY>/<MM>/<DD>/<category>-<unix_timestamp>.json`:
the last five `/`-segments must be the category, the three day segments
(matching the write-day string `ymd`), and a filename equal to the *same*
category followed by `-<epoch>.json`, with a nonempty namespace in front. -/
def keyMatchesForm (key ymd : String) (epoch : Nat) : Bool :=
  match (splitOnChar '/' key.data).reverse with
  | fname :: d :: m :: y :: cat :: rest =>
      ((y ++ '/' :: m ++ '/' :: d) == ymd.data)
        && (fname == cat ++ '-' :: ((Nat.repr epoch).data ++ (".json" : String).data))
        && !rest.isEmpty
  | _ => false

theorem problemsKey_decomp (ymd : String) (e : Nat) :
    problemsKey ymd e
      = "ai-hangout/backups" ++ "/" ++ "problems" ++ "/" ++ ymd ++ "/"
        ++ ("problems" ++ "-" ++ Nat.repr e ++ ".json") := by
  apply string_data_inj
  simp only [problemsKey, String.data_append]
  simp [List.append_assoc]

theorem learningKey_decomp (ymd : String) (e : Nat) :
    learningKey ymd e
      = "ai-hangout" ++ "/" ++ "ai-learning" ++ "/" ++ ymd ++ "/"
        ++ ("learning" ++ "-" ++ Nat.repr e ++ ".json") := by
  apply string_data_inj
  simp only [learningKey, String.data_append]
  simp [List.append_assoc]

theorem problemsKey_inj (ymd : String) (e1 e2 : Nat) :
    problemsKey ymd e1 = problemsKey ymd e2 ↔ e1 = e2 := by
  constructor
  · intro h
    have hd := congrArg String.data h
    simp only [problemsKey, String.data_append] at hd
    exact repr_nat_inj (string_data_inj
      (List.append_cancel_left (List.append_cancel_right hd)))
  · intro h
    rw [h]

theorem learningKey_inj (ymd : String) (e1 e2 : Nat) :
    learningKey ymd e1 = learningKey ymd e2 ↔ e1 = e2 := by
  constructor
  · intro h
    have hd := congrArg String.data h
    simp only [learningKey, String.data_append] at hd
    exact repr_nat_inj (string_data_inj
      (List.append_cancel_left (List.append_cancel_right hd)))
  · intro h
    rw [h]

/-- A concrete environment for exercising the key builders (all clients
configured, both fetches succeed with empty collections, clock fixed). -/
def envK6 : Env :=
  { s3Configured := true
    lambdaConfigured := true
    bedrockConfigured := true
    dynamoConfigured := true
    problemsResp1000 := (200, ⟨some []⟩)
    problemsResp50 := (200, ⟨some []⟩)
    learningResp := (200, ⟨some [], some 0⟩)
    headBucket := .ok ()
    bedrockInvoke := .ok ("", "")
    nowIso := "2024-06-01T12:00:00"
    nowYmd := "2024/06/01"
    nowEpoch := 1717243200 }

/-- C6 counterexample: the key the learning-data Snapshot Writer generates at
a concrete invocation does not follow the claimed
`<namespace>/<category>/<YYYY>/<MM>/<DD>/<category>-<unix_timestamp>.json`
pattern — its directory category segment is `ai-learning` while its filename
stem is `learning` — although the problems key of the same invocation does. -/
theorem claim6_counterexample :
    (backup_analytics_to_s3 envK6 []).1
      = AnalyticsResult.ok (learningKey "2024/06/01" 1717243200) 0 "2024-06-01T12:00:00"
    ∧ keyMatchesForm (learningKey "2024/06/01" 1717243200) "2024/06/01" 1717243200 = false
    ∧ keyMatchesForm (problemsKey "2024/06/01" 1717243200) "2024/06/01" 1717243200 = true := by
  refine ⟨rfl, rfl, rfl⟩

/-- C6 (amended): both Snapshot Writer keys are prefixed by the write day and
carry the epoch second in the trailing filename segment, so two same-day keys
differ only there and collide exactly when the epoch second coincides; the
problems key follows `<ns>/<cat>/<YYYY>/<MM>/<DD>/<cat>-<ts>.json` with
category `problems`, while the learning-data key uses directory category
`ai-learning` but filename stem `learning`. -/
theorem claim6_key_form_amended (env : Env) (s3 : S3State) (ymd : String) (e1 e2 : Nat) :
    (env.s3Configured = true → env.problemsResp1000.1 = 200 →
      ∃ n t, (backup_problems_to_s3 env s3).1
        = BackupResult.ok (problemsKey env.nowYmd env.nowEpoch) n t)
    ∧ (env.s3Configured = true → env.learningResp.1 = 200 →
      ∃ c t, (backup_analytics_to_s3 env s3).1
        = AnalyticsResult.ok (learningKey env.nowYmd env.nowEpoch) c t)
    ∧ (∃ ns cat, ∀ e : Nat, problemsKey ymd e
        = ns ++ "/" ++ cat ++ "/" ++ ymd ++ "/" ++ (cat ++ "-" ++ Nat.repr e ++ ".json"))
    ∧ (∃ ns cat stem, cat ≠ stem ∧ ∀ e : Nat, learningKey ymd e
        = ns ++ "/" ++ cat ++ "/" ++ ymd ++ "/" ++ (stem ++ "-" ++ Nat.repr e ++ ".json"))
    ∧ (problemsKey ymd e1 = problemsKey ymd e2 ↔ e1 = e2)
    ∧ (learningKey ymd e1 = learningKey ymd e2 ↔ e1 = e2) := by
  refine ⟨?_, ?_, ?_, ?_, problemsKey_inj ymd e1 e2, learningKey_inj ymd e1 e2⟩
  · intro h1 h2
    refine ⟨(env.problemsResp1000.2.problems.getD []).length, env.nowIso, ?_⟩
    simp [backup_problems_to_s3, h1, h2]
  · intro h1 h2
    refine ⟨env.learningResp.2.count.getD 0, env.nowIso, ?_⟩
    simp [backup_analytics_to_s3, h1, h2]
  · exact ⟨"ai-hangout/backups", "problems", fun e => problemsKey_decomp ymd e⟩
  · exact ⟨"ai-hangout", "ai-learning", "learning", by decide, fun e => learningKey_decomp ymd e⟩

/-- Witness for the amended C6 at the concrete environment `envK6`. -/
theorem claim6_key_form_amended_witness :
    (∃ n t, (backup_problems_to_s3 envK6 []).1
      = BackupResult.ok (problemsKey "2024/06/01" 1717243200) n t)
    ∧ (∃ c t, (backup_analytics_to_s3 envK6 []).1
      = AnalyticsResult.ok (learningKey "2024/06/01" 1717243200) c t)
    ∧ (problemsKey "2024/06/01" 1717243200 = problemsKey "2024/06/01" 1717243200
        ↔ (1717243200 : Nat) = 1717243200) := by
  have h := claim6_key_form_amended envK6 [] "2024/06/01" 1717243200 1717243200
  exact ⟨h.1 rfl rfl, h.2.1 rfl rfl, h.2.2.2.2.1⟩

/-- One JSON result dict as printed by a CLI subcommand. -/
inductive CliJson where
  | backup (r : BackupResult)
  | analytics (r : AnalyticsResult)
  | sync (r : SyncResult)
  | status (s : ServiceStatus)
  | analyze (r : AnalyzeResult)
deriving DecidableEq, Repr

/-- One line printed to standard output: either plain text or the
`json.dumps` of a result dict. -/
inductive Output where
  | text (s : String)
  | json (j : CliJson)
deriving DecidableEq, Repr

/-- Whether a printed line is a JSON result object. -/
def Output.isJson : Output → Bool
  | .json _ => true
  | .text _ => false

/-- The external mutable state the process can write: bucket plus table. -/
structure World where
  s3 : S3State
  dynamo : DynamoTable
deriving DecidableEq, Repr

/-- `_init_aws_clients` prints a success line when the sts probe and all four
client constructors succeed, and an error line otherwise (the model omits the
appended exception text). -/
def initOutput (env : Env) : Output :=
  if env.s3Configured && env.lambdaConfigured && env.bedrockConfigured
      && env.dynamoConfigured then
    Output.text "[SUCCESS] AWS clients initialized successfully"
  else
    Output.text "[ERROR] AWS not configured"

/-- The CLI `main` of `aws_sync.py`, lines 251-289.  `argv` holds
`sys.argv[1:]` (the arguments after the script name).  The result is the list
of lines printed to standard output paired with the external state after the
run; `Except.error` represents an exception escaping `main` (no handler inside
`main` catches). -/
def cliMain (argv : List String) (env : Env) (w : World) :
    Except String (List Output × World) :=
  let init := initOutput env
  match argv with
  | [] => .ok ([init, Output.text "Usage: python aws_sync.py [backup|analytics|sync|status]"], w)
  | cmd :: rest =>
    if cmd = "backup" then
      let r := backup_problems_to_s3 env w.s3
      .ok ([init, Output.json (CliJson.backup r.1)], { w with s3 := r.2 })
    else if cmd = "analytics" then
      let r := backup_analytics_to_s3 env w.s3
      .ok ([init, Output.json (CliJson.analytics r.1)], { w with s3 := r.2 })
    else if cmd = "sync" then
      let r := sync_to_dynamodb env "ai-hangout-problems" w.dynamo
      .ok ([init, Output.json (CliJson.sync r.1)], { w with dynamo := r.2 })
    else if cmd = "status" then
      match get_status env with
      | .ok s => .ok ([init, Output.json (CliJson.status s)], w)
      | .error e => .error e
    else if cmd = "analyze" then
      match rest with
      | [] => .ok ([init,
          Output.text "Usage: python aws_sync.py analyze \x27your analysis prompt\x27"], w)
      | prompt :: _ =>
          .ok ([init, Output.json (CliJson.analyze (invoke_bedrock_analysis env prompt))], w)
    else .ok ([init, Output.text ("Unknown command: " ++ cmd)], w)

/-- An environment in which no AWS client initialized (missing credentials). -/
def envOff : Env :=
  { s3Configured := false
    lambdaConfigured := false
    bedrockConfigured := false
    dynamoConfigured := false
    problemsResp1000 := (200, ⟨none⟩)
    problemsResp50 := (200, ⟨none⟩)
    learningResp := (200, ⟨none, none⟩)
    headBucket := .error "no credentials"
    bedrockInvoke := .error "no credentials"
    nowIso := "2024-06-01T12:00:00"
    nowYmd := "2024/06/01"
    nowEpoch := 1717243200 }

/-- C7 counterexample: invoking the CLI with subcommand `analyze` and no
prompt argument prints only plain text (an init line and a usage line) — no
JSON object at all — refuting the claim for the `analyze` subcommand without
its prompt argument. -/
theorem claim7_counterexample :
    cliMain ["analyze"] envOff ⟨[], []⟩
      = Except.ok ([Output.text "[ERROR] AWS not configured",
          Output.text "Usage: python aws_sync.py analyze \x27your analysis prompt\x27"],
          ⟨[], []⟩)
    ∧ ([Output.text "[ERROR] AWS not configured",
        Output.text "Usage: python aws_sync.py analyze \x27your analysis prompt\x27"].all
          (fun o => !o.isJson)) = true := ⟨rfl, rfl⟩

/-- C7 (amended): every invocation with subcommand `backup`, `analytics`,
`sync`, `status`, or `analyze` *with* a prompt argument terminates normally
and prints a JSON result object, whether the underlying operation succeeds or
fails (failure is carried inside the printed object); `analyze` without a
prompt instead prints a usage line and no JSON. -/
theorem claim7_cli_prints_json_amended (env : Env) (w : World) (cmd prompt : String) :
    (cmd = "backup" ∨ cmd = "analytics" ∨ cmd = "sync" ∨ cmd = "status" →
      ∃ outs w2, cliMain [cmd] env w = Except.ok (outs, w2) ∧ ∃ j, Output.json j ∈ outs)
    ∧ (∃ outs, cliMain ["analyze", prompt] env w = Except.ok (outs, w)
        ∧ ∃ j, Output.json j ∈ outs)
    ∧ (∃ outs, cliMain ["analyze"] env w = Except.ok (outs, w)
        ∧ outs.all (fun o => !o.isJson) = true) := by
  refine ⟨?_, ?_, ?_⟩
  · rintro (rfl | rfl | rfl | rfl)
    · exact ⟨_, _, rfl, ⟨_, List.mem_cons_of_mem _ (List.mem_singleton_self _)⟩⟩
    · exact ⟨_, _, rfl, ⟨_, List.mem_cons_of_mem _ (List.mem_singleton_self _)⟩⟩
    · exact ⟨_, _, rfl, ⟨_, List.mem_cons_of_mem _ (List.mem_singleton_self _)⟩⟩
    · obtain ⟨s, hs⟩ := get_status_ok env
      refine ⟨[initOutput env, Output.json (CliJson.status s)], w, ?_,
        ⟨CliJson.status s, List.mem_cons_of_mem _ (List.mem_singleton_self _)⟩⟩
      simp [cliMain, hs]
  · exact ⟨_, rfl, ⟨_, List.mem_cons_of_mem _ (List.mem_singleton_self _)⟩⟩
  · refine ⟨_, rfl, ?_⟩
    have hinit : (initOutput env).isJson = false := by
      unfold initOutput
      split <;> rfl
    simp only [List.all_cons, List.all_nil, hinit]
    rfl

/-- Witness for the amended C7 at the concrete environment `envOff`. -/
theorem claim7_cli_prints_json_amended_witness :
    ∃ outs w2, cliMain ["backup"] envOff ⟨[], []⟩ = Except.ok (outs, w2)
      ∧ ∃ j, Output.json j ∈ outs :=
  (claim7_cli_prints_json_amended envOff ⟨[], []⟩ "backup" "p").1 (Or.inl rfl)

/-- The externally visible actions of one scheduler pass
(`src/backup_scheduler.py`): the two S3 backups, the DynamoDB sync, and the
write of the timestamped `backup_summary_<ts>.json` file. -/
inductive Ev where
  | backupProblems
  | backupAnalytics
  | syncDynamo
  | writeSummary
deriving DecidableEq, Repr

/-- Event trace of `run_full_backup` (lines 24-56): problems backup, then
analytics backup, then DynamoDB sync, then the summary file write. -/
def run_full_backup_trace : List Ev :=
  [.backupProblems, .backupAnalytics, .syncDynamo, .writeSummary]

/-- Event trace of `run_quick_sync` (lines 58-66): the DynamoDB sync alone. -/
def run_quick_sync_trace : List Ev := [.syncDynamo]

/-- The two callback registrations of the scheduler `main`. -/
inductive SchedAction where
  | coarse
  | fine
deriving DecidableEq, Repr

/-- Event trace dispatched for a registered action: `coarse` runs
`run_full_backup`, `fine` runs `run_quick_sync`. -/
def actionTrace : SchedAction → List Ev
  | .coarse => run_full_backup_trace
  | .fine => run_quick_sync_trace

/-- One job held by the `schedule` library: its period in seconds, the next
time it is due, and which action it runs.  `schedule.every(p).do(f)` sets the
first due time to registration time plus the period, and each run re-arms the
job at run time plus the period. -/
structure Job where
  period : Nat
  nextRun : Nat
  act : SchedAction
deriving DecidableEq, Repr

/-- `schedule.run_pending()` at time `t`: run every due job in registration
order, sequentially in the single thread, re-arming each ran job. -/
def runPending (t : Nat) : List Job → List Ev × List Job
  | [] => ([], [])
  | j :: js =>
      let rest := runPending t js
      if j.nextRun ≤ t then
        (actionTrace j.act ++ rest.1, { j with nextRun := t + j.period } :: rest.2)
      else
        (rest.1, j :: rest.2)

/-- State of the poll loop: the current clock and the registered jobs. -/
structure SchedState where
  time : Nat
  jobs : List Job
deriving DecidableEq, Repr

/-- One iteration of `while True: schedule.run_pending(); time.sleep(60)`. -/
def tick (st : SchedState) : List Ev × SchedState :=
  let r := runPending st.time st.jobs
  (r.1, ⟨st.time + 60, r.2⟩)

/-- The events of `n` poll iterations from state `st`. -/
def pollTrace : SchedState → Nat → List Ev
  | _, 0 => []
  | st, Nat.succ n =>
      let r := tick st
      r.1 ++ pollTrace r.2 n

/-- The two registrations at lines 76-79 of `backup_scheduler.py`:
`schedule.every(6).hours.do(run_full_backup)` and
`schedule.every(30).minutes.do(run_quick_sync)`, performed at time `t0`. -/
def registerJobs (t0 : Nat) : List Job :=
  [⟨6 * 3600, t0 + 6 * 3600, .coarse⟩, ⟨30 * 60, t0 + 30 * 60, .fine⟩]

/-- The scheduler `main` (lines 68-95): register both jobs, run the initial
full backup once, then poll; `n` bounds the number of observed loop
iterations of the otherwise infinite loop. -/
def schedulerMain (t0 : Nat) (n : Nat) : List Ev :=
  let jobs := registerJobs t0
  run_full_backup_trace ++ pollTrace ⟨t0, jobs⟩ n

/-- C8: the scheduler runs the coarse action exactly once before the poll
loop; it registers the coarse action with a 6-hour period and the fine action
with a 30-minute period; the coarse action is both S3 backups, then the
DynamoDB sync, then the summary-file write, in that order; and each poll
iteration advances the clock by one minute and dispatches the due actions
sequentially as whole blocks — the coarse block first, then the fine block —
so the two actions never overlap. -/
theorem claim8_scheduler_shape (t0 n : Nat) :
    ((registerJobs t0).map (fun j => (j.period, j.act))
        = [(6 * 3600, SchedAction.coarse), (30 * 60, SchedAction.fine)])
    ∧ schedulerMain t0 n = run_full_backup_trace ++ pollTrace ⟨t0, registerJobs t0⟩ n
    ∧ run_full_backup_trace
        = [Ev.backupProblems, Ev.backupAnalytics, Ev.syncDynamo, Ev.writeSummary]
    ∧ (∀ t p1 n1 p2 n2,
        tick ⟨t, [⟨p1, n1, SchedAction.coarse⟩, ⟨p2, n2, SchedAction.fine⟩]⟩
          = ((if n1 ≤ t then run_full_backup_trace else [])
              ++ (if n2 ≤ t then run_quick_sync_trace else []),
             ⟨t + 60, [⟨p1, if n1 ≤ t then t + p1 else n1, SchedAction.coarse⟩,
                       ⟨p2, if n2 ≤ t then t + p2 else n2, SchedAction.fine⟩]⟩)) := by
  refine ⟨rfl, rfl, rfl, ?_⟩
  intro t p1 n1 p2 n2
  by_cases h1 : n1 ≤ t <;> by_cases h2 : n2 ≤ t <;>
    simp [tick, runPending, actionTrace, h1, h2]

/-- The local filesystem as a map from path to file content. -/
abbrev FileSys := List (String × String)

/-- `open(path, 'w')` followed by a full write: create or overwrite. -/
def writeFile : FileSys → String → String → FileSys
  | [], path, content => [(path, content)]
  | (p, c) :: rest, path, content =>
      if p = path then (path, content) :: rest
      else (p, c) :: writeFile rest path content

/-- Read a file back (used only to state properties). -/
def readFile : FileSys → String → Option String
  | [], _ => none
  | (p, c) :: rest, path => if p = path then some c else readFile rest path

/-- The exact `env_content` string written by `enable_free_tier_mode`
(lines 12-18 of `enable_free_tier_mode.py`). -/
def env_content : String :=
  "# AI Hangout Free Tier Configuration\nENABLE_AI_ANALYSIS=false\nBACKUP_FREQUENCY=daily\nSYNC_FREQUENCY=hourly\nMAX_S3_OBJECTS=100\nFREE_TIER_MODE=true\n"

/-- `enable_free_tier_mode` (lines 8-28): overwrite `.env` with the fixed
flag content. -/
def enable_free_tier_mode (fs : FileSys) : FileSys :=
  writeFile fs ".env" env_content

/-- Split a character list into newline-separated lines (the line structure
of the written flags file). -/
def splitLinesAux : List Char → List Char → List (List Char)
  | [], acc => [acc.reverse]
  | c :: cs, acc =>
      if c = '\n' then acc.reverse :: splitLinesAux cs []
      else splitLinesAux cs (c :: acc)

/-- The lines of a file content. -/
def linesOf (s : String) : List (List Char) := splitLinesAux s.data []

/-- A line conforming to the `KEY=VALUE` format: a nonempty key followed by
`=` and the value. -/
def isKeyValueLine (l : List Char) : Bool :=
  match l with
  | [] => false
  | c :: _ => (c != '=') && l.contains '='

/-- A comment line (starts with `#`). -/
def isCommentLine (l : List Char) : Bool :=
  match l with
  | [] => false
  | c :: _ => c == '#'

theorem writeFile_idem (fs : FileSys) (path content : String) :
    writeFile (writeFile fs path content) path content = writeFile fs path content := by
  induction fs with
  | nil => simp [writeFile]
  | cons e rest ih =>
      obtain ⟨p, c⟩ := e
      by_cases h : p = path
      · subst h
        simp [writeFile]
      · simp [writeFile, h, ih]

/-- C9 counterexample: the file `enable_free_tier_mode` writes contains lines
that do not conform to `KEY=VALUE` — the leading comment line and the empty
trailing line — so not *every* line of the written file is `KEY=VALUE`. -/
theorem claim9_counterexample :
    readFile (enable_free_tier_mode []) ".env" = some env_content
    ∧ ((linesOf env_content).all isKeyValueLine) = false
    ∧ isKeyValueLine (("# AI Hangout Free Tier Configuration" : String).data) = false := by
  exact ⟨rfl, rfl, rfl⟩

/-- C9 (amended): `enable_free_tier_mode` is idempotent — it overwrites the
flags file with the same fixed content, so a second run leaves the filesystem
exactly as after the first — and every line of the written file is either the
leading `#` comment, the empty trailing line, or a `KEY=VALUE` line. -/
theorem claim9_mode_toggle_amended (fs : FileSys) :
    enable_free_tier_mode (enable_free_tier_mode fs) = enable_free_tier_mode fs
    ∧ readFile (enable_free_tier_mode fs) ".env" = some env_content
    ∧ ((linesOf env_content).all
        (fun l => isCommentLine l || l.isEmpty || isKeyValueLine l)) = true := by
  refine ⟨writeFile_idem fs ".env" env_content, ?_, rfl⟩
  induction fs with
  | nil => rfl
  | cons e rest ih =>
      obtain ⟨p, c⟩ := e
      by_cases h : p = ".env"
      · subst h
        simp [enable_free_tier_mode, writeFile, readFile]
      · simp only [enable_free_tier_mode, writeFile, if_neg h] at ih ⊢
        simp [readFile, h, ih]
